import Mathlib

/-!
Verification of the data-access facade in `src/services/firebaseService.ts`.

The module is a thin layer over a realtime-database backend.  Each exported
function is embedded as a pure Lean function: a backend read is modelled as an
`Except` value (`.error` when the underlying `get` call throws, `.ok` with the
snapshot contents otherwise), and record normalization is translated field by
field.  JavaScript numbers are modelled as rationals (`ℚ`); the `x || d`
defaulting idiom is modelled by explicit helpers that treat `null`/`undefined`,
the empty string and `0` as falsy, exactly as JavaScript does.
-/

namespace FirebaseService

/-- JavaScript `x || d` on an optional string: `null`/`undefined` and the empty
string are falsy and yield the default `d`.  Mirrors uses such as
`(dish.categoryId || 'uncategorized')` in the source. -/
def jsOrStr (o : Option String) (d : String) : String :=
  match o with
  | some s => if s = "" then d else s
  | none => d

/-- JavaScript `x || d` on an optional number: `null`/`undefined` and `0` are
falsy and yield the default `d`.  Mirrors uses such as
`parseFloat(settings.delivery?.deliveryFee || 10.00)`; `parseFloat` applied to
a number is the identity in this model. -/
def jsOrNum (o : Option ℚ) (d : ℚ) : ℚ :=
  match o with
  | some q => if q = 0 then d else q
  | none => d

/-- JavaScript truthiness of an optional string: `null`/`undefined` and the
empty string are falsy. -/
def jsTruthy (o : Option String) : Bool :=
  match o with
  | some s => s != ""
  | none => false

/-! ## Categories (`fetchCategories`, lines 123-133) -/

/-- Snapshot child under `categories`: a possibly-null key plus the record
value, spread into the result as `{ id: c.key || '', ...c.val() }`. -/
structure CategoryChild where
  key : Option String
  name : String
deriving Repr, DecidableEq

structure Category where
  id : String
  name : String
deriving Repr, DecidableEq

/-- Modelled from the spec: `PLACEHOLDER_CATEGORIES` is imported from
`../constants`, a file that is not among the repository sources.  The spec
says only that it is a fixed placeholder dataset, so its content here is a
fixed representative value; every theorem below depends only on it being a
fixed constant. -/
def PLACEHOLDER_CATEGORIES : List Category :=
  [{ id := "cat-1", name := "Pizza" }, { id := "cat-2", name := "Burgers" }]

/-- Embedding of `fetchCategories` (lines 123-133).  On a successful read the
children are collected; a non-empty result is returned as is, otherwise the
placeholder dataset is returned.  On a thrown error the placeholder dataset is
returned. -/
def fetchCategories (res : Except String (List CategoryChild)) : List Category :=
  match res with
  | .error _ => PLACEHOLDER_CATEGORIES
  | .ok cs =>
      let categoriesData := cs.map (fun c => { id := jsOrStr c.key "", name := c.name })
      if categoriesData.length > 0 then categoriesData else PLACEHOLDER_CATEGORIES

/-! ## Dishes (`fetchDishes`, lines 135-172) -/

/-- Stored price of a dish: either a scalar (possibly missing) number, or a
structured object whose fields may each be missing.  Mirrors the check
`dish.price && typeof dish.price === 'object'` on line 149. -/
inductive RawPrice where
  | scalar : Option ℚ → RawPrice
  | obj : Option ℚ → Option ℚ → Option ℚ → RawPrice
deriving Repr, DecidableEq

/-- Normalized structured price `{ final, restaurantPrice, adminFee }`.  When
the stored price was already an object it is kept as is, so fields stay
optional. -/
structure NormPrice where
  final : Option ℚ
  restaurantPrice : Option ℚ
  adminFee : Option ℚ
deriving Repr, DecidableEq

/-- Raw dish record as read from the `dishes` snapshot (field set from the
normalization on lines 140-156). -/
structure RawDish where
  key : Option String
  name : String
  categoryId : Option String
  pincode : Option String
  discount : Option ℚ
  unit : Option String
  description : Option String
  isInStock : Option Bool
  price : RawPrice
  images : Option (List String)
  imageUrl : Option String
deriving Repr, DecidableEq

/-- Dish record delivered to the caller after normalization. -/
structure Dish where
  key : String
  name : String
  categoryId : String
  pincode : String
  discount : ℚ
  unit : String
  description : String
  isInStock : Bool
  price : NormPrice
  customerPrice : ℚ
  images : List String
  imageUrl : Option String
deriving Repr, DecidableEq

/-- Embedding of lines 149-151: a structured price is kept as is; a scalar
price `p` becomes `{ final: parseFloat(p || 0), restaurantPrice:
parseFloat(p || 0), adminFee: 0 }`. -/
def normalizePrice : RawPrice → NormPrice
  | .obj f r a => { final := f, restaurantPrice := r, adminFee := a }
  | .scalar p =>
      { final := some (jsOrNum p 0), restaurantPrice := some (jsOrNum p 0), adminFee := some 0 }

/-- Default image URL used on lines 156 and 169. -/
def DEFAULT_DISH_IMAGE : String := "https://picsum.photos/150/110"

/-- Embedding of the per-record normalization in the `fetchDishes` loop
(lines 140-156): sentinel defaults for missing strings, `discount || 0`,
`isInStock === undefined ? true : isInStock`, price normalization, the derived
`customerPrice = parseFloat(price.final || 0) * (1 - discount / 100)`, and the
images default. -/
def normalizeDish (d : RawDish) : Dish :=
  let price := normalizePrice d.price
  let finalPriceBeforeDiscount := jsOrNum price.final 0
  { key := jsOrStr d.key ""
    name := d.name
    categoryId := jsOrStr d.categoryId "uncategorized"
    pincode := jsOrStr d.pincode "ALL"
    discount := jsOrNum d.discount 0
    unit := jsOrStr d.unit "Unit N/A"
    description := jsOrStr d.description "No description available."
    isInStock := d.isInStock.getD true
    price := price
    customerPrice := finalPriceBeforeDiscount * (1 - (jsOrNum d.discount 0) / 100)
    images :=
      match d.images with
      | some l => if l.length > 0 then l else [jsOrStr d.imageUrl DEFAULT_DISH_IMAGE]
      | none => [jsOrStr d.imageUrl DEFAULT_DISH_IMAGE]
    imageUrl := d.imageUrl }

/-- Embedding of the skip guard on line 158:
`if (userPincode && dish.pincode !== 'ALL' && dish.pincode !== userPincode)`.
The guard fires only when the caller pincode is truthy (non-null and
non-empty). -/
def pincodeSkip (userPincode : Option String) (dishPincode : String) : Bool :=
  jsTruthy userPincode && dishPincode != "ALL" && dishPincode != userPincode.getD ""

/-- Modelled from the spec: `PLACEHOLDER_DISHES` is imported from
`../constants`, which is not among the repository sources.  The spec says only
that it is a fixed placeholder dataset of dish records; its content here is a
fixed representative value with a structured price, as the error-path mapping
on lines 166-170 requires. -/
def PLACEHOLDER_DISHES : List Dish :=
  [{ key := "ph-dish-1", name := "Margherita", categoryId := "cat-1", pincode := "ALL"
     discount := 10, unit := "1 plate", description := "Classic pizza.", isInStock := true
     price := { final := some 200, restaurantPrice := some 180, adminFee := some 20 }
     customerPrice := 0, images := [], imageUrl := some "https://example.com/ph1.png" },
   { key := "ph-dish-2", name := "Veg Burger", categoryId := "cat-2", pincode := "ALL"
     discount := 0, unit := "1 pc", description := "House burger.", isInStock := true
     price := { final := some 120, restaurantPrice := some 110, adminFee := some 10 }
     customerPrice := 0, images := ["https://example.com/ph2.png"], imageUrl := none }]

/-- Embedding of the error fallback of `fetchDishes` (lines 166-170): the
placeholder dishes with `customerPrice` and `images` recomputed.  The
placeholder records always carry a structured price with `final` present, so
the `getD 0` on `final` is never exercised. -/
def dishesFallback : List Dish :=
  PLACEHOLDER_DISHES.map (fun d =>
    { d with
      customerPrice := d.price.final.getD 0 * (1 - (jsOrNum (some d.discount) 0) / 100)
      images :=
        if d.images.length > 0 then d.images else [jsOrStr d.imageUrl DEFAULT_DISH_IMAGE] })

/-- Embedding of `fetchDishes` (lines 135-172).  On a successful read every
child is normalized and kept unless the pincode guard on line 158 skips it; on
a thrown error the fixed fallback dataset is returned. -/
def fetchDishes (userPincode : Option String) (res : Except String (List RawDish)) : List Dish :=
  match res with
  | .error _ => dishesFallback
  | .ok ds => (ds.map normalizeDish).filter (fun d => ! pincodeSkip userPincode d.pincode)

/-! ## Banners (`fetchBanners`, lines 174-190) -/

structure RawBanner where
  imageUrl : Option String
  title : Option String
deriving Repr, DecidableEq

structure SliderImage where
  downloadURL : String
  title : Option String
deriving Repr, DecidableEq

/-- Modelled from the spec: `PLACEHOLDER_SLIDER_IMAGES` is imported from
`../constants`, which is not among the repository sources; content here is a
fixed representative value. -/
def PLACEHOLDER_SLIDER_IMAGES : List SliderImage :=
  [{ downloadURL := "https://example.com/banner1.png", title := some "Welcome" }]

/-- Embedding of the loop body on lines 178-183: a banner contributes a slide
exactly when its `imageUrl` is truthy. -/
def bannerToSlide (b : RawBanner) : Option SliderImage :=
  if jsTruthy b.imageUrl then
    some { downloadURL := b.imageUrl.getD "", title := b.title }
  else none

/-- Embedding of `fetchBanners` (lines 174-190): only banners with a truthy
`imageUrl` are collected (line 180); a non-empty result is returned as is,
otherwise the placeholder dataset; on a thrown error the placeholder
dataset. -/
def fetchBanners (res : Except String (List RawBanner)) : List SliderImage :=
  match res with
  | .error _ => PLACEHOLDER_SLIDER_IMAGES
  | .ok bs =>
      let sliderImages := bs.filterMap bannerToSlide
      if sliderImages.length > 0 then sliderImages else PLACEHOLDER_SLIDER_IMAGES

/-! ## App settings (`fetchAppSettings`, lines 97-120) -/

structure RawThemeSettings where
  customerThemeColor : Option String
deriving Repr, DecidableEq

structure RawDeliverySettings where
  deliveryFee : Option ℚ
  freeDeliveryThreshold : Option ℚ
deriving Repr, DecidableEq

/-- Raw `settings` record; `snapshot.val()` may be null (modelled by the
caller passing `.ok none`) and each nested object may be missing. -/
structure RawSettings where
  theme : Option RawThemeSettings
  delivery : Option RawDeliverySettings
deriving Repr, DecidableEq

structure AppSettings where
  customerThemeColor : String
  deliveryFee : ℚ
  freeDeliveryThreshold : ℚ
deriving Repr, DecidableEq

/-- Default settings returned on a thrown error (lines 115-118). -/
def defaultAppSettings : AppSettings :=
  { customerThemeColor := "#673AB7", deliveryFee := 10, freeDeliveryThreshold := 0 }

/-- Embedding of `fetchAppSettings` (lines 97-120): `snapshot.val() || {}`
followed by per-field defaulting with the JavaScript `||` idiom. -/
def fetchAppSettings (res : Except String (Option RawSettings)) : AppSettings :=
  match res with
  | .error _ => defaultAppSettings
  | .ok v =>
      let settings := v.getD { theme := none, delivery := none }
      { customerThemeColor :=
          jsOrStr (settings.theme.bind (fun t => t.customerThemeColor)) "#673AB7"
        deliveryFee := jsOrNum (settings.delivery.bind (fun d => d.deliveryFee)) 10
        freeDeliveryThreshold :=
          jsOrNum (settings.delivery.bind (fun d => d.freeDeliveryThreshold)) 0 }

/-! ## User data (`saveNewUserData`, lines 62-67) -/

/-- Path written by `saveNewUserData`. -/
def userDataPath (uid : String) : String := "users/" ++ uid

/-- Embedding of the record written by `saveNewUserData` (lines 62-67):
`set(ref(db, 'users/' + uid), { ...data, createdAt: new Date().toISOString() })`.
The record is modelled as a field-lookup map; by JavaScript object-literal
semantics the explicit `createdAt` property written after the spread overrides
any `createdAt` supplied in `data`, and every other field comes from the
spread unchanged.  `now` stands for `new Date().toISOString()`. -/
def saveNewUserData (data : String → Option String) (now : String) : String → Option String :=
  fun field => if field = "createdAt" then some now else data field

/-! ## Orders (`listenForUserOrders`, lines 232-280)

The `onValue` callback for one notification batch runs in two phases.  Phase 1
is the synchronous `snapshot.forEach` loop (lines 239-266): it filters records
to the current user, derives the customer status, and - for 'On Way' orders
with a truthy driver id - registers a `get(delivery_partners/{id})` lookup
guarded by `if (!dpCache[order.dboyId])`.  The `.then`/`.catch` continuations
that write `dpCache` (lines 251 and 259) are promise reactions; the JavaScript
runtime never runs a promise reaction synchronously with the code that
registered it, so none of them runs before the loop finishes, and the guard
reads the cache as it was when the loop started (empty).  The embedding makes
this explicit: `collectUserOrders` threads the loop-time cache as an
unchanging parameter, and the batch entry point passes the empty cache.  Phase
2 (after `await Promise.all`, lines 268-278) reads the now-populated cache,
attaches driver details, sorts, and delivers. -/

/-- Raw order record as read from the `orders` snapshot (the fields the
routine inspects). -/
structure RawOrder where
  key : Option String
  userId : String
  status : String
  dboyId : Option String
  timestamp : Int
deriving Repr, DecidableEq

structure DriverDetails where
  name : String
  mobile : String
  imageUrl : String
deriving Repr, DecidableEq

/-- Modelled from the spec: `SIMULATED_DRIVER` is imported from
`../constants`, which is not among the repository sources.  The spec says only
that it is a fixed placeholder driver record; its content here is a fixed
representative value. -/
def SIMULATED_DRIVER : DriverDetails :=
  { name := "Simulated Driver", mobile := "0000000000"
    imageUrl := "https://cdn-icons-png.flaticon.com/512/4140/4140037.png" }

/-- Record stored under `delivery_partners/{id}` (the fields read on lines
252-254). -/
structure DeliveryPartnerData where
  name : String
  mobile : String
  profileImageUrl : Option String
deriving Repr, DecidableEq

/-- Order record delivered to the callback. -/
structure Order where
  k : String
  userId : String
  status : String
  dboyId : Option String
  timestamp : Int
  customerStatus : String
  driverDetails : Option DriverDetails
deriving Repr, DecidableEq

/-- Embedding of line 242: `CUSTOMER_STATUS_MAP[val.status] || 'Processing'`.
The mapping table `CUSTOMER_STATUS_MAP` is imported from `../constants`, which
is not among the repository sources, so it is kept abstract as a parameter
`statusMap`; an unmapped status yields `none` and hence the default. -/
def deriveCustomerStatus (statusMap : String → Option String) (status : String) : String :=
  jsOrStr (statusMap status) "Processing"

/-- Embedding of line 243: `{ k: childSnap.key || '', ...val, customerStatus }`.
`driverDetails` is absent at this point. -/
def mkOrder (statusMap : String → Option String) (raw : RawOrder) : Order :=
  { k := jsOrStr raw.key "", userId := raw.userId, status := raw.status
    dboyId := raw.dboyId, timestamp := raw.timestamp
    customerStatus := deriveCustomerStatus statusMap raw.status, driverDetails := none }

/-- Embedding of phase 1, the synchronous `forEach` loop (lines 239-266).
Returns the accumulated `userOrders` list and the driver ids for which a
lookup promise was registered, in registration order.  `dpCache` is the cache
visible during the loop; it is a fixed parameter because the continuation
writes on lines 251 and 259 cannot run before the loop ends (see the section
comment), so the guard on line 246 sees the same cache for every iteration. -/
def collectUserOrders (statusMap : String → Option String) (uid : String)
    (dpCache : String → Option DriverDetails) :
    List RawOrder → List Order × List String
  | [] => ([], [])
  | raw :: rest =>
      let next := collectUserOrders statusMap uid dpCache rest
      if raw.userId = uid then
        let order := mkOrder statusMap raw
        if order.customerStatus == "On Way" && jsTruthy raw.dboyId &&
            (dpCache (raw.dboyId.getD "")).isNone then
          (order :: next.1, raw.dboyId.getD "" :: next.2)
        else (order :: next.1, next.2)
      else next

/-- Embedding of one `get(delivery_partners/{id})` lookup together with its
`.then`/`.catch` handling (lines 248-260): a thrown error or a null snapshot
value yields `SIMULATED_DRIVER`; otherwise the public fields are projected,
with the stock icon as the image default.  The backend is modelled as a
function from driver id to the outcome of the read. -/
def resolveLookup (dpBackend : String → Except String (Option DeliveryPartnerData))
    (id : String) : DriverDetails :=
  match dpBackend id with
  | .error _ => SIMULATED_DRIVER
  | .ok none => SIMULATED_DRIVER
  | .ok (some dp) =>
      { name := dp.name, mobile := dp.mobile
        imageUrl := jsOrStr dp.profileImageUrl
          "https://cdn-icons-png.flaticon.com/512/4140/4140037.png" }

/-- State of `dpCache` after `await Promise.all(dpPromises)` (line 268): every
requested id has been written with the outcome of its lookup (duplicated
requests for the same id write the same value, the backend being a function of
the id); ids never requested remain absent. -/
def dpCacheAfterAwait (dpBackend : String → Except String (Option DeliveryPartnerData))
    (requests : List String) : String → Option DriverDetails :=
  fun id => if requests.contains id then some (resolveLookup dpBackend id) else none

/-- Embedding of the mapping on lines 270-275: an 'On Way' order with a truthy
driver id receives `driverDetails: dpCache[order.dboyId]`; other orders pass
through unchanged. -/
def attachDriverDetails (dpCache : String → Option DriverDetails) (o : Order) : Order :=
  if o.customerStatus == "On Way" && jsTruthy o.dboyId then
    { o with driverDetails := dpCache (o.dboyId.getD "") }
  else o

/-- Embedding of line 277: `sort((a, b) => b.timestamp - a.timestamp)`, a sort
by numeric timestamp, newest first. -/
def sortByTimestampDesc (l : List Order) : List Order :=
  l.mergeSort (fun a b => decide (b.timestamp ≤ a.timestamp))

/-- Embedding of one notification batch of `listenForUserOrders` (lines
232-279): phase 1 with the empty loop-time cache, the awaited cache, phase 2
attachment, sort, and the list handed to the callback. -/
def listenForUserOrdersBatch (statusMap : String → Option String)
    (dpBackend : String → Except String (Option DeliveryPartnerData))
    (uid : String) (batch : List RawOrder) : List Order :=
  let collected := collectUserOrders statusMap uid (fun _ => none) batch
  let dpCache := dpCacheAfterAwait dpBackend collected.2
  sortByTimestampDesc (collected.1.map (attachDriverDetails dpCache))

/-! ## Concrete sample inputs used in witnesses and counterexamples -/

/-- Sample status map sending one backend code to 'On Way' and leaving every
other code unmapped (the real `CUSTOMER_STATUS_MAP` is outside the sources). -/
def sampleStatusMap : String → Option String :=
  fun s => if s = "out_for_delivery" then some "On Way" else none

/-- Two orders of the same user, both 'On Way', both referencing driver `d1`. -/
def sampleDupBatch : List RawOrder :=
  [{ key := some "o1", userId := "u1", status := "out_for_delivery"
     dboyId := some "d1", timestamp := 5 },
   { key := some "o2", userId := "u1", status := "out_for_delivery"
     dboyId := some "d1", timestamp := 3 }]

/-- Status map with no entries at all. -/
def sampleNoneMap : String → Option String := fun _ => none

/-- Driver backend whose every read throws. -/
def sampleDpDown : String → Except String (Option DeliveryPartnerData) := fun _ => .error "down"

/-- Driver backend whose every read succeeds with no data. -/
def sampleDpEmpty : String → Except String (Option DeliveryPartnerData) := fun _ => .ok none

/-- One order with the unmapped status "delivered". -/
def sampleUnmappedBatch : List RawOrder :=
  [{ key := some "o1", userId := "u1", status := "delivered", dboyId := none, timestamp := 5 }]

/-- Expected delivered form of the order in `sampleUnmappedBatch`. -/
def sampleProcessingOrder : Order :=
  { k := "o1", userId := "u1", status := "delivered", dboyId := none, timestamp := 5
    customerStatus := "Processing", driverDetails := none }

/-- One 'On Way' order of user `u1` assigned to driver `d7`. -/
def sampleOnWayRaw : RawOrder :=
  { key := some "o9", userId := "u1", status := "out_for_delivery"
    dboyId := some "d7", timestamp := 42 }

/-- Dish with a structured stored price. -/
def sampleStructuredDish : RawDish :=
  { key := some "dish-9", name := "Paneer Tikka", categoryId := some "cat-1"
    pincode := some "ALL", discount := some 10, unit := some "1 plate"
    description := none, isInStock := some true
    price := .obj (some 200) (some 180) (some 20), images := none, imageUrl := none }

/-- Dish marked for every pincode. -/
def sampleAllDish : RawDish :=
  { key := some "dish-all", name := "Everywhere Dish", categoryId := some "cat-1"
    pincode := some "ALL", discount := none, unit := none, description := none
    isInStock := none, price := .scalar (some 50), images := none, imageUrl := none }

/-- Dish stored for pincode 560002. -/
def sampleOtherPinDish : RawDish :=
  { key := some "dish-560002", name := "Local Dish", categoryId := some "cat-1"
    pincode := some "560002", discount := none, unit := none, description := none
    isInStock := none, price := .scalar (some 50), images := none, imageUrl := none }

/-- Banner list in which no record has a truthy `imageUrl`. -/
def sampleBannersNoImage : List RawBanner :=
  [{ imageUrl := some "", title := some "t" }, { imageUrl := none, title := none }]

/-- Sample profile data passed to `saveNewUserData`, including a stale
`createdAt` that the function must override. -/
def sampleUserData : String → Option String :=
  fun field =>
    if field = "name" then some "Asha"
    else if field = "createdAt" then some "2020-01-01T00:00:00.000Z"
    else none

/-! ## Helper lemmas -/

theorem jsOrNum_some_zero (q : ℚ) : jsOrNum (some q) 0 = q := by
  unfold jsOrNum
  split <;> simp_all

theorem attach_k (c : String → Option DriverDetails) (o : Order) :
    (attachDriverDetails c o).k = o.k := by
  unfold attachDriverDetails
  split <;> rfl

theorem attach_status (c : String → Option DriverDetails) (o : Order) :
    (attachDriverDetails c o).status = o.status := by
  unfold attachDriverDetails
  split <;> rfl

theorem attach_customerStatus (c : String → Option DriverDetails) (o : Order) :
    (attachDriverDetails c o).customerStatus = o.customerStatus := by
  unfold attachDriverDetails
  split <;> rfl

theorem attach_timestamp (c : String → Option DriverDetails) (o : Order) :
    (attachDriverDetails c o).timestamp = o.timestamp := by
  unfold attachDriverDetails
  split <;> rfl

theorem collect_fst_cons (m : String → Option String) (uid : String)
    (c : String → Option DriverDetails) (raw : RawOrder) (rest : List RawOrder) :
    (collectUserOrders m uid c (raw :: rest)).1 =
      if raw.userId = uid then mkOrder m raw :: (collectUserOrders m uid c rest).1
      else (collectUserOrders m uid c rest).1 := by
  rw [collectUserOrders]
  by_cases h : raw.userId = uid
  · simp only [if_pos h]
    split <;> rfl
  · simp only [if_neg h]

theorem collect_snd_cons (m : String → Option String) (uid : String)
    (c : String → Option DriverDetails) (raw : RawOrder) (rest : List RawOrder) :
    (collectUserOrders m uid c (raw :: rest)).2 =
      if raw.userId = uid ∧
          ((mkOrder m raw).customerStatus == "On Way" && jsTruthy raw.dboyId &&
            (c (raw.dboyId.getD "")).isNone) = true then
        raw.dboyId.getD "" :: (collectUserOrders m uid c rest).2
      else (collectUserOrders m uid c rest).2 := by
  rw [collectUserOrders]
  by_cases h : raw.userId = uid <;>
    by_cases hg : ((mkOrder m raw).customerStatus == "On Way" && jsTruthy raw.dboyId &&
        (c (raw.dboyId.getD "")).isNone) = true <;>
      simp [h, hg]

theorem mem_collect_orders (m : String → Option String) (uid : String)
    (c : String → Option DriverDetails) (batch : List RawOrder) (o : Order)
    (ho : o ∈ (collectUserOrders m uid c batch).1) :
    ∃ raw ∈ batch, raw.userId = uid ∧ o = mkOrder m raw := by
  induction batch with
  | nil => simp [collectUserOrders] at ho
  | cons raw rest ih =>
      rw [collect_fst_cons] at ho
      by_cases h : raw.userId = uid
      · rw [if_pos h] at ho
        rcases List.mem_cons.mp ho with rfl | htail
        · exact ⟨raw, List.mem_cons_self _ _, h, rfl⟩
        · rcases ih htail with ⟨r, hr, hru, rfl⟩
          exact ⟨r, List.mem_cons_of_mem _ hr, hru, rfl⟩
      · rw [if_neg h] at ho
        rcases ih ho with ⟨r, hr, hru, rfl⟩
        exact ⟨r, List.mem_cons_of_mem _ hr, hru, rfl⟩

theorem mkOrder_mem_collect (m : String → Option String) (uid : String)
    (c : String → Option DriverDetails) (batch : List RawOrder) (raw : RawOrder)
    (hmem : raw ∈ batch) (huser : raw.userId = uid) :
    mkOrder m raw ∈ (collectUserOrders m uid c batch).1 := by
  induction batch with
  | nil => cases hmem
  | cons r rest ih =>
      rw [collect_fst_cons]
      rcases List.mem_cons.mp hmem with rfl | htail
      · rw [if_pos huser]
        exact List.mem_cons_self _ _
      · by_cases h : r.userId = uid
        · rw [if_pos h]
          exact List.mem_cons_of_mem _ (ih htail)
        · rw [if_neg h]
          exact ih htail

theorem dboyId_mem_collect_requests (m : String → Option String) (uid : String)
    (batch : List RawOrder) (raw : RawOrder)
    (hmem : raw ∈ batch) (huser : raw.userId = uid)
    (hcs : (mkOrder m raw).customerStatus = "On Way") (hb : jsTruthy raw.dboyId = true) :
    raw.dboyId.getD "" ∈ (collectUserOrders m uid (fun _ => none) batch).2 := by
  induction batch with
  | nil => cases hmem
  | cons r rest ih =>
      rw [collect_snd_cons]
      rcases List.mem_cons.mp hmem with rfl | htail
      · rw [if_pos ⟨huser, by simp [hcs, hb]⟩]
        exact List.mem_cons_self _ _
      · split
        · exact List.mem_cons_of_mem _ (ih htail)
        · exact ih htail

theorem mem_listen_shape (m : String → Option String)
    (dp : String → Except String (Option DeliveryPartnerData))
    (uid : String) (batch : List RawOrder) (o : Order)
    (ho : o ∈ listenForUserOrdersBatch m dp uid batch) :
    ∃ raw ∈ batch, raw.userId = uid ∧
      o = attachDriverDetails
            (dpCacheAfterAwait dp (collectUserOrders m uid (fun _ => none) batch).2)
            (mkOrder m raw) := by
  simp only [listenForUserOrdersBatch, sortByTimestampDesc, List.mem_mergeSort] at ho
  rcases List.mem_map.mp ho with ⟨o1, ho1, rfl⟩
  rcases mem_collect_orders m uid _ batch o1 ho1 with ⟨raw, hraw, huser, rfl⟩
  exact ⟨raw, hraw, huser, rfl⟩

theorem sortByTimestampDesc_sorted (l : List Order) :
    List.Sorted (fun a b => b.timestamp ≤ a.timestamp) (sortByTimestampDesc l) := by
  have htrans : ∀ a b c : Order, decide (b.timestamp ≤ a.timestamp) = true →
      decide (c.timestamp ≤ b.timestamp) = true →
      decide (c.timestamp ≤ a.timestamp) = true := by
    intro a b c hab hbc
    simp only [decide_eq_true_eq] at *
    omega
  have htotal : ∀ a b : Order,
      (decide (b.timestamp ≤ a.timestamp) || decide (a.timestamp ≤ b.timestamp)) = true := by
    intro a b
    simp only [Bool.or_eq_true, decide_eq_true_eq]
    omega
  have h := List.sorted_mergeSort htrans htotal l
  unfold sortByTimestampDesc
  exact List.Pairwise.imp (fun hab => by simpa using hab) h

/-! ## Claim theorems -/

/-- C1: the claim states that each distinct driver id referenced by 'On Way'
orders of the current user triggers at most one backend lookup per batch.
The code violates this: the writes to `dpCache` sit in `.then`/`.catch`
promise continuations (lines 251 and 259), and a promise continuation never
runs synchronously with the code that registered it, so during the whole
`forEach` loop the guard `if (!dpCache[order.dboyId])` (line 246) reads the
still-empty cache and passes for every qualifying order.  Evaluated here: a
batch with two 'On Way' orders of the same user, both referencing driver
`d1`, registers two lookups for the single distinct id `d1`. -/
theorem listen_duplicate_driver_lookups :
    (collectUserOrders sampleStatusMap "u1" (fun _ => none) sampleDupBatch).2 = ["d1", "d1"] ∧
    ((collectUserOrders sampleStatusMap "u1" (fun _ => none) sampleDupBatch).2.count "d1") = 2 :=
  ⟨rfl, rfl⟩

/-- C2: every dish returned by `fetchDishes` is the normalization of a stored
record, and whenever the stored price is a structured object with a `final`
field, the derived `customerPrice` equals `price.final * (1 - discount / 100)`
(with `discount` the dish's normalized discount). -/
theorem fetchDishes_structured_customerPrice (up : Option String) (ds : List RawDish)
    (d : Dish) (hd : d ∈ fetchDishes up (.ok ds)) :
    ∃ rd ∈ ds, d = normalizeDish rd ∧
      ∀ f pr pa, rd.price = RawPrice.obj (some f) pr pa →
        d.customerPrice = f * (1 - d.discount / 100) := by
  simp only [fetchDishes] at hd
  have hd1 := (List.mem_filter.mp hd).1
  rcases List.mem_map.mp hd1 with ⟨rd, hrd, rfl⟩
  refine ⟨rd, hrd, rfl, ?_⟩
  intro f pr pa hp
  simp only [normalizeDish, normalizePrice, hp, jsOrNum_some_zero]

/-- Witness for C2: the concrete dish with structured price `final = 200` and
discount 10 satisfies the theorem's conclusion. -/
theorem fetchDishes_structured_customerPrice_witness :
    ∃ rd ∈ [sampleStructuredDish], normalizeDish sampleStructuredDish = normalizeDish rd ∧
      ∀ f pr pa, rd.price = RawPrice.obj (some f) pr pa →
        (normalizeDish sampleStructuredDish).customerPrice =
          f * (1 - (normalizeDish sampleStructuredDish).discount / 100) :=
  fetchDishes_structured_customerPrice none [sampleStructuredDish]
    (normalizeDish sampleStructuredDish) (by simp [fetchDishes, pincodeSkip, jsTruthy])

/-- C3: for every notification batch, the list handed to the callback is
sorted by the numeric `timestamp` field in descending order (newest first). -/
theorem listen_sorted_by_timestamp_desc (m : String → Option String)
    (dp : String → Except String (Option DeliveryPartnerData)) (uid : String)
    (batch : List RawOrder) :
    List.Sorted (fun a b => b.timestamp ≤ a.timestamp)
      (listenForUserOrdersBatch m dp uid batch) :=
  sortByTimestampDesc_sorted _

/-- C4 counterexample: the claim quantifies over every non-null caller
pincode, but with the non-null caller pincode `""` (which JavaScript treats as
falsy) the guard on line 158 never fires: the dish stored for pincode
`"560002"`, which differs from the caller pincode `""`, is nevertheless
included, so the claim's exclusion clause fails at this input. -/
theorem fetchDishes_empty_pincode_not_filtered :
    normalizeDish sampleOtherPinDish ∈ fetchDishes (some "") (.ok [sampleOtherPinDish]) ∧
    (normalizeDish sampleOtherPinDish).pincode = "560002" ∧ "560002" ≠ "" := by
  refine ⟨?_, rfl, by decide⟩
  simp [fetchDishes, pincodeSkip, jsTruthy]

/-- C4 amended: for every non-null and non-empty caller pincode, a stored dish
is included in the `fetchDishes` result exactly when its normalized pincode is
`"ALL"` or equals the caller pincode. -/
theorem fetchDishes_pincode_filter (p : String) (hp : p ≠ "") (ds : List RawDish)
    (rd : RawDish) (hmem : rd ∈ ds) :
    normalizeDish rd ∈ fetchDishes (some p) (.ok ds) ↔
      ((normalizeDish rd).pincode = "ALL" ∨ (normalizeDish rd).pincode = p) := by
  have hmm : normalizeDish rd ∈ List.map normalizeDish ds := List.mem_map_of_mem _ hmem
  simp [fetchDishes, List.mem_filter, hmm, pincodeSkip, jsTruthy, hp]

/-- Witness for C4: with caller pincode `"560001"`, the dish marked `"ALL"`
and the dish stored for `"560002"` both satisfy the inclusion
characterization. -/
theorem fetchDishes_pincode_filter_witness :
    (normalizeDish sampleAllDish ∈
        fetchDishes (some "560001") (.ok [sampleAllDish, sampleOtherPinDish]) ↔
      ((normalizeDish sampleAllDish).pincode = "ALL" ∨
        (normalizeDish sampleAllDish).pincode = "560001")) ∧
    (normalizeDish sampleOtherPinDish ∈
        fetchDishes (some "560001") (.ok [sampleAllDish, sampleOtherPinDish]) ↔
      ((normalizeDish sampleOtherPinDish).pincode = "ALL" ∨
        (normalizeDish sampleOtherPinDish).pincode = "560001")) :=
  ⟨fetchDishes_pincode_filter "560001" (by decide) _ sampleAllDish
      (List.mem_cons_self _ _),
   fetchDishes_pincode_filter "560001" (by decide) _ sampleOtherPinDish
      (List.mem_cons_of_mem _ (List.mem_cons_self _ _))⟩

/-- C5: every order delivered by a `listenForUserOrders` batch whose stored
status code has no entry in the customer-status map gets the derived status
`"Processing"`. -/
theorem listen_unmapped_status_processing (m : String → Option String)
    (dp : String → Except String (Option DeliveryPartnerData)) (uid : String)
    (batch : List RawOrder) (o : Order)
    (ho : o ∈ listenForUserOrdersBatch m dp uid batch) (hm : m o.status = none) :
    o.customerStatus = "Processing" := by
  rcases mem_listen_shape m dp uid batch o ho with ⟨raw, hraw, huser, rfl⟩
  rw [attach_status] at hm
  simp only [mkOrder] at hm
  rw [attach_customerStatus]
  simp [mkOrder, deriveCustomerStatus, jsOrStr, hm]

/-- Witness for C5: the concrete order with the unmapped status `"delivered"`
is delivered with customer status `"Processing"`. -/
theorem listen_unmapped_status_processing_witness :
    sampleProcessingOrder ∈
      listenForUserOrdersBatch sampleNoneMap sampleDpDown "u1" sampleUnmappedBatch ∧
    sampleProcessingOrder.customerStatus = "Processing" := by
  have hmem : sampleProcessingOrder ∈
      listenForUserOrdersBatch sampleNoneMap sampleDpDown "u1" sampleUnmappedBatch := by
    simp [listenForUserOrdersBatch, collectUserOrders, mkOrder, deriveCustomerStatus,
      jsOrStr, jsTruthy, attachDriverDetails, dpCacheAfterAwait, sortByTimestampDesc,
      sampleUnmappedBatch, sampleNoneMap, sampleProcessingOrder]
  exact ⟨hmem,
    listen_unmapped_status_processing sampleNoneMap sampleDpDown "u1"
      sampleUnmappedBatch sampleProcessingOrder hmem rfl⟩

/-- C6: when the backend read throws, each catalog fetch returns its fixed
fallback dataset instead of propagating the error: the placeholder categories,
the placeholder dishes (with derived fields recomputed, lines 166-170), the
placeholder slider images, and the default settings. -/
theorem fetch_error_returns_placeholders (e : String) (up : Option String) :
    fetchCategories (.error e) = PLACEHOLDER_CATEGORIES ∧
    fetchDishes up (.error e) = dishesFallback ∧
    fetchBanners (.error e) = PLACEHOLDER_SLIDER_IMAGES ∧
    fetchAppSettings (.error e) = defaultAppSettings :=
  ⟨rfl, rfl, rfl, rfl⟩

/-- C7: an 'On Way' order with a truthy driver id is always delivered, and
when its driver lookup throws or returns no data its `driverDetails` field is
the fixed `SIMULATED_DRIVER` placeholder. -/
theorem listen_lookup_failure_placeholder (m : String → Option String)
    (dp : String → Except String (Option DeliveryPartnerData))
    (uid : String) (batch : List RawOrder) (raw : RawOrder)
    (hmem : raw ∈ batch) (huser : raw.userId = uid)
    (hcs : deriveCustomerStatus m raw.status = "On Way")
    (hb : jsTruthy raw.dboyId = true)
    (hfail : (∃ e, dp (raw.dboyId.getD "") = .error e) ∨
      dp (raw.dboyId.getD "") = .ok none) :
    ∃ o ∈ listenForUserOrdersBatch m dp uid batch,
      o.k = jsOrStr raw.key "" ∧ o.timestamp = raw.timestamp ∧
      o.driverDetails = some SIMULATED_DRIVER := by
  have hcs' : (mkOrder m raw).customerStatus = "On Way" := hcs
  refine ⟨attachDriverDetails
      (dpCacheAfterAwait dp (collectUserOrders m uid (fun _ => none) batch).2)
      (mkOrder m raw), ?_, ?_, ?_, ?_⟩
  · simp only [listenForUserOrdersBatch, sortByTimestampDesc, List.mem_mergeSort]
    exact List.mem_map_of_mem _ (mkOrder_mem_collect m uid _ batch raw hmem huser)
  · exact attach_k _ _
  · exact attach_timestamp _ _
  · have hreq : raw.dboyId.getD "" ∈ (collectUserOrders m uid (fun _ => none) batch).2 :=
      dboyId_mem_collect_requests m uid batch raw hmem huser hcs' hb
    have hguard : ((mkOrder m raw).customerStatus == "On Way" &&
        jsTruthy (mkOrder m raw).dboyId) = true := by
      simp only [mkOrder] at hcs' ⊢
      simp [hcs', hb]
    have hc : ((collectUserOrders m uid (fun _ => none) batch).2.contains
        (raw.dboyId.getD "")) = true := List.elem_iff.mpr hreq
    unfold attachDriverDetails
    rw [if_pos hguard]
    simp only [mkOrder, dpCacheAfterAwait]
    rw [if_pos hc]
    unfold resolveLookup
    rcases hfail with ⟨e, he⟩ | hnone
    · rw [he]
    · rw [hnone]

/-- Witness for C7: the concrete 'On Way' order assigned to driver `d7` with a
backend returning no data is delivered with the placeholder driver. -/
theorem listen_lookup_failure_placeholder_witness :
    ∃ o ∈ listenForUserOrdersBatch sampleStatusMap sampleDpEmpty "u1" [sampleOnWayRaw],
      o.k = jsOrStr sampleOnWayRaw.key "" ∧ o.timestamp = sampleOnWayRaw.timestamp ∧
      o.driverDetails = some SIMULATED_DRIVER :=
  listen_lookup_failure_placeholder sampleStatusMap sampleDpEmpty "u1" [sampleOnWayRaw]
    sampleOnWayRaw (List.mem_cons_self _ _) rfl rfl rfl (Or.inr rfl)

/-- C8: a successful read that yields zero categories, or zero banners with a
truthy `imageUrl`, returns the same fixed placeholder dataset as a failed
read. -/
theorem fetch_empty_read_returns_placeholders (e : String) (bs : List RawBanner)
    (hb : ∀ b ∈ bs, jsTruthy b.imageUrl = false) :
    fetchCategories (.ok []) = PLACEHOLDER_CATEGORIES ∧
    fetchCategories (.ok []) = fetchCategories (.error e) ∧
    fetchBanners (.ok bs) = PLACEHOLDER_SLIDER_IMAGES ∧
    fetchBanners (.ok bs) = fetchBanners (.error e) := by
  have hfm : bs.filterMap bannerToSlide = [] := by
    rw [List.filterMap_eq_nil_iff]
    intro b hbm
    unfold bannerToSlide
    rw [hb b hbm]
    rfl
  have hban : fetchBanners (.ok bs) = PLACEHOLDER_SLIDER_IMAGES := by
    simp only [fetchBanners, hfm]
    rfl
  exact ⟨rfl, rfl, hban, hban⟩

/-- Witness for C8: a concrete banner list holding only records with an empty
or missing `imageUrl` yields the placeholder dataset. -/
theorem fetch_empty_read_returns_placeholders_witness :
    fetchCategories (.ok []) = PLACEHOLDER_CATEGORIES ∧
    fetchCategories (.ok []) = fetchCategories (.error "down") ∧
    fetchBanners (.ok sampleBannersNoImage) = PLACEHOLDER_SLIDER_IMAGES ∧
    fetchBanners (.ok sampleBannersNoImage) = fetchBanners (.error "down") :=
  fetch_empty_read_returns_placeholders "down" sampleBannersNoImage (by decide)

/-- C9: with a null caller pincode every stored dish is included: the result
is exactly the normalization of every child, in order, with no pincode
filtering. -/
theorem fetchDishes_null_pincode_includes_all (ds : List RawDish) :
    fetchDishes none (.ok ds) = ds.map normalizeDish := by
  simp [fetchDishes, pincodeSkip, jsTruthy]

/-- C10: the record written by `saveNewUserData` has `createdAt` set to the
current timestamp regardless of any `createdAt` supplied by the caller, and
every other field is taken from the caller's data unchanged. -/
theorem saveNewUserData_overrides_createdAt (data : String → Option String) (now : String) :
    saveNewUserData data now "createdAt" = some now ∧
    ∀ field, field ≠ "createdAt" → saveNewUserData data now field = data field := by
  constructor
  · rfl
  · intro field hf
    unfold saveNewUserData
    rw [if_neg hf]

/-- Witness for C10: concrete data carrying a stale `createdAt` and a `name`:
the written record has the fresh timestamp and the unchanged name. -/
theorem saveNewUserData_overrides_createdAt_witness :
    saveNewUserData sampleUserData "2026-10-12T00:00:00.000Z" "createdAt" =
      some "2026-10-12T00:00:00.000Z" ∧
    saveNewUserData sampleUserData "2026-10-12T00:00:00.000Z" "name" =
      sampleUserData "name" :=
  ⟨(saveNewUserData_overrides_createdAt sampleUserData "2026-10-12T00:00:00.000Z").1,
   (saveNewUserData_overrides_createdAt sampleUserData "2026-10-12T00:00:00.000Z").2
      "name" (by decide)⟩

end FirebaseService
